import Mathlib

/-!
Shallow embedding of `src/server.py` (polen-analiz-sitesi), the Flask service
that delegates pollen detection in microscope images to an external generative
model. The external model call, the Python standard-library JSON parser and the
random source are environment effects; they enter the embedding as explicit
input data (`AnalyzeGateway`, `ParseOutcome`, the uniform draw `u`), while all
decision logic of the service (field defaulting, rounding, the confidence gate,
error classification, the HTTP handlers) is translated function by function.
Python floats are modelled as rationals; `round(x, 2)` is modelled as rounding
to the nearest multiple of 1/100 (the tie-breaking rule is irrelevant to every
property below). Python string slicing `s[:n]` is `pyTake`, substring
containment `"Hata" in s` is `containsSub`.
-/

namespace PolenAnaliz

/-- Python string slice `s[:n]`: the first `n` characters of `s`. -/
def pyTake (s : String) (n : Nat) : String := ⟨s.data.take n⟩

/-- Helper for `containsSub`: does `pat` occur at the head of `s`? -/
def startsWithL : List Char → List Char → Bool
  | [], _ => true
  | _ :: _, [] => false
  | p :: ps, c :: cs => p = c && startsWithL ps cs

/-- Helper for `containsSub`: does `pat` occur anywhere in `s`? -/
def occursIn (pat : List Char) : List Char → Bool
  | [] => startsWithL pat []
  | c :: cs => startsWithL pat (c :: cs) || occursIn pat cs

/-- Python `pat in s` on strings: substring containment. -/
def containsSub (s pat : String) : Bool := occursIn pat.data s.data

/-- Python `s.startswith(pat)` on strings, used to classify error messages. -/
def startsWithStr (s pat : String) : Bool := startsWithL pat.data s.data

/-- Python `round(x, 2)`: round to the nearest multiple of 1/100. -/
def round2 (q : ℚ) : ℚ := (round (q * 100) : ℚ) / 100

/-- The 4-tuple `(message, is_pollen, confidence, pollen_type)` returned by
`analyze_with_gemini` on every exit path. -/
structure PollenResult where
  message : String
  is_pollen : Bool
  confidence : ℚ
  pollen_type : String
deriving DecidableEq, Repr

/-- The three detection fields right after the parse step (lines 96-99),
before the confidence gate runs. -/
structure Detection where
  is_pollen : Bool
  confidence : ℚ
  pollen_type : String
deriving DecidableEq, Repr

/-- Outcome of `json.loads(response.text)` plus the subsequent `.get`/`round`
accesses on the decoded value:
* `object ip c pt` — the payload decodes to a dict whose present fields have
  the schema types; `none` marks an absent key (`.get` then supplies the
  default);
* `decodeError` — `json.loads` raises `json.JSONDecodeError` (payload is not
  syntactically valid JSON), caught at line 114;
* `badStructure excMsg` — `json.loads` succeeds but the value is not a dict
  (`.get` raises `AttributeError`) or a present field has a type `round`
  rejects (`TypeError`); either exception is caught by the generic
  `except Exception` at line 116 with message text `excMsg`. -/
inductive ParseOutcome where
  | object (is_pollen : Option Bool) (confidence : Option ℚ) (pollen_type : Option String)
  | decodeError
  | badStructure (excMsg : String)
deriving DecidableEq, Repr

/-- Environment of one `analyze_with_gemini` call:
* `noClient` — the module-level `client` is `None` (no API key at startup);
* `apiError m` — `client.models.generate_content` raises `APIError` with
  provider message `m`;
* `response text parsed` — the call returns a response whose `.text` is
  `text` and decodes as `parsed`. -/
inductive AnalyzeGateway where
  | noClient
  | apiError (m : String)
  | response (text : String) (parsed : ParseOutcome)
deriving DecidableEq, Repr

/-- Whether the branch reaches the outbound `generate_content` network call:
every path except the `if not client` early return does. -/
def networkCalled : AnalyzeGateway → Bool
  | .noClient => false
  | _ => true

/-- Status message of the below-threshold branch (line 106). -/
def lowConfMessage : String := "Analiz başarılı, ancak güven eşiği altında (Polen Yok)."

/-- Status message of the detection branch (line 108). -/
def detectedMessage : String := "Analiz başarılı ve polen tespit edildi."

/-- Fixed text of the JSON-decode error message (line 115) up to the payload
excerpt. -/
def malformedMsgHead : String :=
  "JSON çözümleme hatası: Modelden beklenen yapısal yanıt alınamadı. Yanıt: "

/-- Parse step, lines 97-99: `.get` with defaults `False`, `0.0`, `"Yok"`,
and `round(..., 2)` on the confidence. -/
def parseDetection (ip : Option Bool) (c : Option ℚ) (pt : Option String) : Detection :=
  { is_pollen := ip.getD false
    confidence := round2 (c.getD 0)
    pollen_type := pt.getD "Yok" }

/-- Confidence gate, lines 101-110: below the 0.90 threshold, or when the
model said no pollen, force a no-pollen verdict with a display confidence
resampled from `uniform(0.70, 0.89)`; otherwise pass through unchanged.
`u` is the value drawn by `random.uniform(0.70, 0.89)`. -/
def confidenceGate (d : Detection) (u : ℚ) : PollenResult :=
  if d.confidence < 9/10 ∨ d.is_pollen = false then
    { message := lowConfMessage
      is_pollen := false
      confidence := round2 u
      pollen_type := "Yok" }
  else
    { message := detectedMessage
      is_pollen := d.is_pollen
      confidence := d.confidence
      pollen_type := d.pollen_type }

/-- Lines 56-117: `analyze_with_gemini`, one case per exit path. -/
def analyze_with_gemini (gw : AnalyzeGateway) (u : ℚ) : PollenResult :=
  match gw with
  | .noClient =>
      { message := "API İstemcisi başlatılamadı.", is_pollen := false
        confidence := 0, pollen_type := "Hata" }
  | .apiError m =>
      { message := "API isteği hatası (Sınır/Kota): " ++ m, is_pollen := false
        confidence := 0, pollen_type := "Hata" }
  | .response text .decodeError =>
      { message := malformedMsgHead ++ pyTake text 100, is_pollen := false
        confidence := 0, pollen_type := "Hata" }
  | .response _ (.badStructure m) =>
      { message := "Bilinmeyen hata: " ++ m, is_pollen := false
        confidence := 0, pollen_type := "Hata" }
  | .response _ (.object ip c pt) =>
      confidenceGate (parseDetection ip c pt) u

/-- JSON body of an HTTP response, one optional slot per key the handlers
ever emit (`jsonify` keys across lines 135, 146, 156-161, 165-170, 197, 205,
207-210, 219, 227, 229-232). An absent key is `none`. -/
structure RespBody where
  error : Option String := none
  message : Option String := none
  is_pollen : Option Bool := none
  confidence : Option ℚ := none
  pollen_type : Option String := none
  info : Option String := none
  plan : Option String := none
deriving DecidableEq, Repr

/-- Result of one HTTP handler run: status code, JSON body, and whether an
outbound model network call was made during the request. -/
structure AnalyzeOutcome where
  status : Nat
  body : RespBody
  modelCalled : Bool
deriving DecidableEq, Repr

/-- One `/analyze` request: whether a `file` part is present in
`request.files`, its filename, its declared MIME type, and its bytes. -/
structure AnalyzeRequest where
  filePresent : Bool
  filename : String
  mimetype : String
  fileBytes : List Nat
deriving DecidableEq, Repr

/-- Lines 127-170: the `/analyze` handler `analyze_image`. The outer
`except Exception` wrapper (lines 172-187) is unreachable here because every
modelled step is total. Note the handler reads `file.mimetype` only to print
it (line 138); no branch consults it. -/
def analyze_image (req : AnalyzeRequest) (gw : AnalyzeGateway) (u : ℚ) : AnalyzeOutcome :=
  if req.filePresent = false ∨ req.filename = "" then
    { status := 400, body := { error := some "Geçerli bir dosya bulunamadı." }
      modelCalled := false }
  else if req.fileBytes.length = 0 then
    { status := 400, body := { error := some "Yüklenen dosya boş." }
      modelCalled := false }
  else
    let r := analyze_with_gemini gw u
    if containsSub r.pollen_type "Hata" = true ∨ containsSub r.message "Hata" = true then
      { status := 500
        body := { error := some r.message, is_pollen := some false
                  confidence := some 0, pollen_type := some "Hata" }
        modelCalled := networkCalled gw }
    else
      { status := 200
        body := { message := some r.message, is_pollen := some r.is_pollen
                  confidence := some r.confidence, pollen_type := some r.pollen_type }
        modelCalled := networkCalled gw }

/-- Environment of one `generate_text_gemini` call: no client, an `APIError`
from the provider, some other exception, or a successful text response. -/
inductive TextGateway where
  | noClient
  | apiError (m : String)
  | exc (m : String)
  | ok (text : String)
deriving DecidableEq, Repr

/-- Whether a `generate_text_gemini` invocation reaches the outbound
`generate_content` network call. -/
def textNetworkCalled : TextGateway → Bool
  | .noClient => false
  | _ => true

/-- The dict `generate_text_gemini` returns: either `{"error": ...}` or
`{"text": ...}`. -/
inductive GenResult where
  | failure (msg : String)
  | text (t : String)
deriving DecidableEq, Repr

/-- Lines 38-54: `generate_text_gemini`, one case per exit path. -/
def generate_text_gemini : TextGateway → GenResult
  | .noClient => .failure "API İstemcisi başlatılamadı."
  | .apiError m => .failure ("API İstek Hatası: " ++ m)
  | .exc m => .failure ("Beklenmeyen Hata: " ++ m)
  | .ok t => .text t

/-- Python truthiness test `if not pollen_type:` on the value of key `pollen_type`:
true when the key is absent (`None`) or the value is the empty string. -/
def pollenTypeMissing : Option String → Bool
  | none => true
  | some s => s = ""

/-- Lines 191-210: the `/get_pollen_info` handler. -/
def get_pollen_info_endpoint (pollen_type : Option String) (gw : TextGateway) :
    AnalyzeOutcome :=
  if pollenTypeMissing pollen_type then
    { status := 400, body := { error := some "Polen tipi belirtilmedi" }
      modelCalled := false }
  else
    match generate_text_gemini gw with
    | .failure m =>
        { status := 500, body := { error := some m }
          modelCalled := textNetworkCalled gw }
    | .text t =>
        { status := 200
          body := { info := some t, pollen_type := some (pollen_type.getD "") }
          modelCalled := textNetworkCalled gw }

/-- Lines 213-232: the `/get_action_plan` handler. -/
def get_action_plan_endpoint (pollen_type : Option String) (gw : TextGateway) :
    AnalyzeOutcome :=
  if pollenTypeMissing pollen_type then
    { status := 400, body := { error := some "Polen tipi belirtilmedi" }
      modelCalled := false }
  else
    match generate_text_gemini gw with
    | .failure m =>
        { status := 500, body := { error := some m }
          modelCalled := textNetworkCalled gw }
    | .text t =>
        { status := 200
          body := { plan := some t, pollen_type := some (pollen_type.getD "") }
          modelCalled := textNetworkCalled gw }

/-! Helper lemmas about rounding. -/

/-- Rounding to hundredths keeps a value that already is a whole number of
hundredths. -/
lemma round2_hundredths (n : ℕ) : round2 ((n : ℚ) / 100) = (n : ℚ) / 100 := by
  simp only [round2]
  rw [div_mul_cancel₀ _ (by norm_num : (100 : ℚ) ≠ 0), round_natCast]
  push_cast
  ring

/-- Rounding to hundredths does not leave the band `[0.70, 0.89]`. -/
lemma round2_band {u : ℚ} (h1 : 7/10 ≤ u) (h2 : u ≤ 89/100) :
    7/10 ≤ round2 u ∧ round2 u ≤ 89/100 := by
  have h70 : (70 : ℤ) ≤ round (u * 100) := by
    rw [round_eq]
    refine Int.le_floor.2 ?_
    push_cast
    linarith
  have h89 : round (u * 100) ≤ 89 := by
    rw [round_eq]
    have hlt : ⌊u * 100 + 1/2⌋ < (90 : ℤ) := by
      refine Int.floor_lt.2 ?_
      push_cast
      linarith
    omega
  have h70q : (70 : ℚ) ≤ (round (u * 100) : ℚ) := by exact_mod_cast h70
  have h89q : ((round (u * 100) : ℚ)) ≤ 89 := by exact_mod_cast h89
  constructor
  · simp only [round2]
    linarith
  · simp only [round2]
    linarith

/-- Every value `round2` produces is a whole number of hundredths. -/
lemma round2_is_hundredths (q : ℚ) : ∃ n : ℤ, round2 q = (n : ℚ) / 100 :=
  ⟨round (q * 100), rfl⟩

/-! Theorems settling the claims. -/

/-- C1: for every parsed detection with confidence below 0.90 or
`is_pollen = false`, the confidence gate outputs `is_pollen = false`,
`pollen_type = "Yok"`, and a confidence inside the band `[0.70, 0.89]`
(given that the injected uniform draw lies in that band, which is the
contract of `random.uniform(0.70, 0.89)`). -/
theorem gate_forces_no_pollen_below_threshold (d : Detection) (u : ℚ)
    (hd : d.confidence < 9/10 ∨ d.is_pollen = false)
    (hu1 : 7/10 ≤ u) (hu2 : u ≤ 89/100) :
    (confidenceGate d u).is_pollen = false ∧
    (confidenceGate d u).pollen_type = "Yok" ∧
    7/10 ≤ (confidenceGate d u).confidence ∧
    (confidenceGate d u).confidence ≤ 89/100 := by
  obtain ⟨hb1, hb2⟩ := round2_band hu1 hu2
  simp only [confidenceGate, if_pos hd]
  exact ⟨trivial, trivial, hb1, hb2⟩

/-- Witness for C1 at a concrete low-confidence detection. -/
theorem gate_forces_no_pollen_below_threshold_witness :
    ((1:ℚ)/2 < 9/10 ∨ (true = false)) ∧ (7:ℚ)/10 ≤ 3/4 ∧ (3:ℚ)/4 ≤ 89/100 ∧
    ((confidenceGate ⟨true, 1/2, "Çam Poleni"⟩ (3/4)).is_pollen = false ∧
     (confidenceGate ⟨true, 1/2, "Çam Poleni"⟩ (3/4)).pollen_type = "Yok" ∧
     7/10 ≤ (confidenceGate ⟨true, 1/2, "Çam Poleni"⟩ (3/4)).confidence ∧
     (confidenceGate ⟨true, 1/2, "Çam Poleni"⟩ (3/4)).confidence ≤ 89/100) :=
  ⟨Or.inl (by norm_num), by norm_num, by norm_num,
    gate_forces_no_pollen_below_threshold ⟨true, 1/2, "Çam Poleni"⟩ (3/4)
      (Or.inl (by norm_num)) (by norm_num) (by norm_num)⟩

/-- Shared helper: above the threshold with a positive verdict, the gate is
the identity on the detection fields. -/
lemma gate_passthrough (d : Detection) (u : ℚ)
    (hc : 9/10 ≤ d.confidence) (hp : d.is_pollen = true) :
    confidenceGate d u =
      { message := detectedMessage, is_pollen := d.is_pollen
        confidence := d.confidence, pollen_type := d.pollen_type } := by
  have hcond : ¬ (d.confidence < 9/10 ∨ d.is_pollen = false) := by
    rintro (h | h)
    · exact absurd hc (not_le.2 h)
    · rw [hp] at h
      exact Bool.noConfusion h
  simp only [confidenceGate, if_neg hcond]

/-- C2: for every parsed detection with confidence at least 0.90 and
`is_pollen = true`, the confidence gate passes the detection through
unchanged and sets the status message to the detected message. -/
theorem gate_passthrough_high_confidence (d : Detection) (u : ℚ)
    (hc : 9/10 ≤ d.confidence) (hp : d.is_pollen = true) :
    confidenceGate d u =
      { message := detectedMessage, is_pollen := d.is_pollen
        confidence := d.confidence, pollen_type := d.pollen_type } :=
  gate_passthrough d u hc hp

/-- Witness for C2 at a concrete high-confidence detection. -/
theorem gate_passthrough_high_confidence_witness :
    (9:ℚ)/10 ≤ 19/20 ∧
    confidenceGate ⟨true, 19/20, "Çam Poleni"⟩ (3/4) =
      { message := detectedMessage, is_pollen := true
        confidence := 19/20, pollen_type := "Çam Poleni" } :=
  ⟨by norm_num,
    gate_passthrough_high_confidence ⟨true, 19/20, "Çam Poleni"⟩ (3/4)
      (by norm_num) rfl⟩

/-- C3: for every payload that decodes as a JSON object, the parse step
defaults a missing `is_pollen` to `false`, a missing `confidence` to `0.0`,
a missing `pollen_type` to `"Yok"`, and rounds the confidence to two decimal
places. -/
theorem parser_defaults_and_rounding (ip : Option Bool) (c : Option ℚ)
    (pt : Option String) :
    (ip = none → (parseDetection ip c pt).is_pollen = false) ∧
    (c = none → (parseDetection ip c pt).confidence = 0) ∧
    (pt = none → (parseDetection ip c pt).pollen_type = "Yok") ∧
    (parseDetection ip c pt).confidence = round2 (c.getD 0) ∧
    ∃ n : ℤ, (parseDetection ip c pt).confidence = (n : ℚ) / 100 := by
  refine ⟨?_, ?_, ?_, rfl, round2_is_hundredths _⟩
  · rintro rfl
    rfl
  · rintro rfl
    simp only [parseDetection, Option.getD_none]
    simp only [round2, mul_comm]
    norm_num
  · rintro rfl
    rfl

/-- Witness for C3 at the fully-absent payload `{}`. -/
theorem parser_defaults_and_rounding_witness :
    (parseDetection none none none).is_pollen = false ∧
    (parseDetection none none none).confidence = 0 ∧
    (parseDetection none none none).pollen_type = "Yok" ∧
    (parseDetection none none none).confidence = round2 ((none : Option ℚ).getD 0) ∧
    ∃ n : ℤ, (parseDetection none none none).confidence = (n : ℚ) / 100 := by
  obtain ⟨h1, h2, h3, h4, h5⟩ := parser_defaults_and_rounding none none none
  exact ⟨h1 rfl, h2 rfl, h3 rfl, h4, h5⟩

/-- The confidence gate never breaks the no-pollen invariant: whenever its
output says no pollen, the pollen type is the sentinel. -/
lemma gate_invariant (d : Detection) (u : ℚ) :
    (confidenceGate d u).is_pollen = false →
    (confidenceGate d u).pollen_type = "Yok" := by
  by_cases hcond : d.confidence < 9/10 ∨ d.is_pollen = false
  · intro _
    simp only [confidenceGate, if_pos hcond]
  · intro h
    rw [confidenceGate, if_neg hcond] at h
    exact absurd (Or.inr h) hcond

/-- C4 counterexample: a payload that is syntactically valid JSON but not an
object (here a JSON array, on which `.get` raises `AttributeError`) lands in
the generic `except Exception` branch of `analyze_with_gemini`, producing the
unknown-error result, not the `MalformedResponse` (JSON-decode-error) kind. -/
theorem parser_nonobject_not_malformed_kind :
    analyze_with_gemini
        (.response "[1, 2, 3]" (.badStructure "list object has no attribute get")) 0
      = { message := "Bilinmeyen hata: list object has no attribute get"
          is_pollen := false, confidence := 0, pollen_type := "Hata" } ∧
    startsWithStr
      (analyze_with_gemini
        (.response "[1, 2, 3]" (.badStructure "list object has no attribute get")) 0).message
      "JSON çözümleme hatası" = false :=
  ⟨rfl, by decide⟩

/-- C4 amended: for every model payload, `analyze_with_gemini` is total and
its result is either the gated parse of a JSON object or a classified error
tuple marked `"Hata"`; on a JSON decode failure the error message carries
only the first 100 characters of the payload, so its length is bounded by
the fixed prefix plus 100. -/
theorem parser_total_bounded_excerpt (text : String) (parsed : ParseOutcome) (u : ℚ) :
    ((∃ ip c pt, parsed = .object ip c pt ∧
        analyze_with_gemini (.response text parsed) u
          = confidenceGate (parseDetection ip c pt) u) ∨
      (analyze_with_gemini (.response text parsed) u).pollen_type = "Hata") ∧
    (parsed = .decodeError →
      (analyze_with_gemini (.response text parsed) u).message
          = malformedMsgHead ++ pyTake text 100 ∧
      (analyze_with_gemini (.response text parsed) u).message.length
          ≤ malformedMsgHead.length + 100) := by
  cases parsed with
  | object ip c pt =>
      exact ⟨Or.inl ⟨ip, c, pt, rfl, rfl⟩, fun h => ParseOutcome.noConfusion h⟩
  | decodeError =>
      refine ⟨Or.inr rfl, fun _ => ⟨rfl, ?_⟩⟩
      show (malformedMsgHead ++ pyTake text 100).length ≤ malformedMsgHead.length + 100
      rw [String.length_append]
      have hb : (pyTake text 100).length ≤ 100 := text.data.length_take_le 100
      omega
  | badStructure m =>
      exact ⟨Or.inr rfl, fun h => ParseOutcome.noConfusion h⟩

/-- Witness for C4 amended at a concrete non-JSON payload. -/
theorem parser_total_bounded_excerpt_witness :
    (analyze_with_gemini (.response "bozuk yanit" .decodeError) 0).pollen_type = "Hata" ∧
    (analyze_with_gemini (.response "bozuk yanit" .decodeError) 0).message
        = malformedMsgHead ++ pyTake "bozuk yanit" 100 ∧
    (analyze_with_gemini (.response "bozuk yanit" .decodeError) 0).message.length
        ≤ malformedMsgHead.length + 100 := by
  obtain ⟨h1, h2⟩ := parser_total_bounded_excerpt "bozuk yanit" .decodeError 0
  obtain ⟨h2a, h2b⟩ := h2 rfl
  refine ⟨?_, h2a, h2b⟩
  rcases h1 with ⟨ip, c, pt, heq, _⟩ | hp
  · exact ParseOutcome.noConfusion heq
  · exact hp

/-- Evaluation of the analysis on a high-confidence positive payload: the
gate passes it through. -/
lemma analyze_high_conf_eval (t pt : String) (u : ℚ) :
    analyze_with_gemini (.response t (.object (some true) (some (19/20)) (some pt))) u
      = { message := detectedMessage, is_pollen := true
          confidence := 19/20, pollen_type := pt } := by
  have hd : parseDetection (some true) (some (19/20)) (some pt)
      = { is_pollen := true, confidence := 19/20, pollen_type := pt } := by
    have h95 : round2 (19/20 : ℚ) = 19/20 := by
      have h : (19/20 : ℚ) = ((95 : ℕ) : ℚ) / 100 := by norm_num
      rw [h, round2_hundredths]
    simp only [parseDetection, Option.getD_some, h95]
  show confidenceGate (parseDetection (some true) (some (19/20)) (some pt)) u = _
  rw [hd, gate_passthrough _ u (by norm_num) rfl]

/-- C5 counterexample: a request carrying a `text/plain` file with non-empty
bytes is not rejected with a 400 before the model call; `analyze_image`
forwards it to the model (the outbound call happens) and returns 200 when
the model reports a high-confidence detection. -/
theorem media_type_never_validated :
    analyze_image ⟨true, "notlar.txt", "text/plain", [1, 2, 3]⟩
        (.response "" (.object (some true) (some (19/20)) (some "Çam Poleni"))) (3/4)
      = { status := 200
          body := { message := some detectedMessage, is_pollen := some true
                    confidence := some (19/20), pollen_type := some "Çam Poleni" }
          modelCalled := true } := by
  have hr := analyze_high_conf_eval ""  "Çam Poleni" (3/4)
  have h1 : ¬ ((true : Bool) = false ∨ ("notlar.txt" : String) = "") := by decide
  have h2 : ¬ (([1, 2, 3] : List Nat).length = 0) := by decide
  have h3 : ¬ (containsSub "Çam Poleni" "Hata" = true ∨
      containsSub detectedMessage "Hata" = true) := by decide
  simp only [analyze_image, h1, h2, if_neg, hr, if_false]
  rw [if_neg h3]
  rfl

/-- C5 amended: `/analyze` performs no media-type validation at all: the
declared MIME type never influences the handler result, and any request
with a file part, a non-empty filename and non-empty bytes proceeds to the
analysis call (the outbound model call happens whenever a client is
configured), whatever the media type is. -/
theorem analyze_ignores_media_type (present : Bool) (name mt mt2 : String)
    (bytes : List Nat) (gw : AnalyzeGateway) (u : ℚ)
    (hp : present = true) (hn : name ≠ "") (hb : bytes ≠ []) :
    analyze_image ⟨present, name, mt, bytes⟩ gw u
      = analyze_image ⟨present, name, mt2, bytes⟩ gw u ∧
    (analyze_image ⟨present, name, mt, bytes⟩ gw u).modelCalled = networkCalled gw := by
  refine ⟨rfl, ?_⟩
  subst hp
  have h1 : ¬ ((true : Bool) = false ∨ name = "") := by
    rintro (h | h)
    · exact Bool.noConfusion h
    · exact hn h
  have h2 : ¬ (bytes.length = 0) := by
    intro h
    exact hb (List.length_eq_zero.mp h)
  simp only [analyze_image]
  rw [if_neg h1, if_neg h2]
  by_cases h3 : containsSub (analyze_with_gemini gw u).pollen_type "Hata" = true ∨
      containsSub (analyze_with_gemini gw u).message "Hata" = true
  · rw [if_pos h3]
  · rw [if_neg h3]

/-- Witness for C5 amended: a `text/plain` upload with a configured client
reaches the outbound model call. -/
theorem analyze_ignores_media_type_witness :
    ("notlar.txt" : String) ≠ "" ∧ ([7] : List Nat) ≠ [] ∧
    analyze_image ⟨true, "notlar.txt", "text/plain", [7]⟩ (.apiError "kota") 0
      = analyze_image ⟨true, "notlar.txt", "image/jpeg", [7]⟩ (.apiError "kota") 0 ∧
    (analyze_image ⟨true, "notlar.txt", "text/plain", [7]⟩ (.apiError "kota") 0).modelCalled
      = networkCalled (.apiError "kota") :=
  ⟨by decide, by decide,
    (analyze_ignores_media_type true "notlar.txt" "text/plain" "image/jpeg" [7]
      (.apiError "kota") 0 rfl (by decide) (by decide)).1,
    (analyze_ignores_media_type true "notlar.txt" "text/plain" "image/jpeg" [7]
      (.apiError "kota") 0 rfl (by decide) (by decide)).2⟩

/-- C6 counterexample: the no-client exit path of `analyze_with_gemini`
produces `is_pollen = false` with `pollen_type = "Hata"`, not the sentinel
`"Yok"`: the claimed invariant fails on the error exit paths. -/
theorem invariant_fails_on_error_path :
    (analyze_with_gemini .noClient 0).is_pollen = false ∧
    (analyze_with_gemini .noClient 0).pollen_type = "Hata" ∧
    (analyze_with_gemini .noClient 0).pollen_type ≠ "Yok" :=
  ⟨rfl, rfl, by decide⟩

/-- C6 amended: on the parse-success exit paths of `analyze_with_gemini`
(the model call returned and the payload decoded as a JSON object) the
invariant holds: `is_pollen = false` implies `pollen_type = "Yok"`. On every
other exit path the result carries the error marker `"Hata"` instead of the
sentinel. -/
theorem no_pollen_invariant_on_success_paths (gw : AnalyzeGateway) (u : ℚ) :
    (∀ t ip c pt, gw = .response t (.object ip c pt) →
      ((analyze_with_gemini gw u).is_pollen = false →
        (analyze_with_gemini gw u).pollen_type = "Yok")) ∧
    ((analyze_with_gemini gw u).pollen_type = "Hata" ∨
      ((analyze_with_gemini gw u).is_pollen = false →
        (analyze_with_gemini gw u).pollen_type = "Yok")) := by
  constructor
  · rintro t ip c pt rfl
    exact gate_invariant _ u
  · cases gw with
    | noClient => exact Or.inl rfl
    | apiError m => exact Or.inl rfl
    | response t parsed =>
        cases parsed with
        | object ip c pt => exact Or.inr (gate_invariant _ u)
        | decodeError => exact Or.inl rfl
        | badStructure m => exact Or.inl rfl

/-- Witness for C6 amended: a parsed object where the model itself says no
pollen yields the sentinel pollen type. -/
theorem no_pollen_invariant_on_success_paths_witness :
    (analyze_with_gemini
        (.response "" (.object (some false) (some 1) (some "Çam Poleni"))) 0).is_pollen
      = false ∧
    (analyze_with_gemini
        (.response "" (.object (some false) (some 1) (some "Çam Poleni"))) 0).pollen_type
      = "Yok" := by
  have h := (no_pollen_invariant_on_success_paths
      (.response "" (.object (some false) (some 1) (some "Çam Poleni"))) 0).1
      "" (some false) (some 1) (some "Çam Poleni") rfl
  have hfalse : (analyze_with_gemini
      (.response "" (.object (some false) (some 1) (some "Çam Poleni"))) 0).is_pollen
      = false := by
    simp [analyze_with_gemini, confidenceGate, parseDetection]
  exact ⟨hfalse, h hfalse⟩

/-- C7: with no API key the module-level client is `None`, and every
operation fails fast with the classified client-unavailable error instead
of raising: `generate_text_gemini` returns the error dict,
`analyze_with_gemini` returns the error tuple, and all three endpoints
surface a 500 JSON error without ever attempting a network call. -/
theorem no_client_fails_fast (u : ℚ) (pt name mt : String) (bytes : List Nat)
    (hpt : pt ≠ "") (hn : name ≠ "") (hb : bytes ≠ []) :
    generate_text_gemini .noClient = .failure "API İstemcisi başlatılamadı." ∧
    analyze_with_gemini .noClient u =
      { message := "API İstemcisi başlatılamadı.", is_pollen := false
        confidence := 0, pollen_type := "Hata" } ∧
    (get_pollen_info_endpoint (some pt) .noClient).status = 500 ∧
    (get_pollen_info_endpoint (some pt) .noClient).body.error
      = some "API İstemcisi başlatılamadı." ∧
    (get_pollen_info_endpoint (some pt) .noClient).modelCalled = false ∧
    (get_action_plan_endpoint (some pt) .noClient).status = 500 ∧
    (get_action_plan_endpoint (some pt) .noClient).body.error
      = some "API İstemcisi başlatılamadı." ∧
    (get_action_plan_endpoint (some pt) .noClient).modelCalled = false ∧
    analyze_image ⟨true, name, mt, bytes⟩ .noClient u
      = { status := 500
          body := { error := some "API İstemcisi başlatılamadı."
                    is_pollen := some false, confidence := some 0
                    pollen_type := some "Hata" }
          modelCalled := false } := by
  have hm : pollenTypeMissing (some pt) = false := by
    simp [pollenTypeMissing, hpt]
  have h1 : ¬ ((true : Bool) = false ∨ name = "") := by
    rintro (h | h)
    · exact Bool.noConfusion h
    · exact hn h
  have h2 : ¬ (bytes.length = 0) := by
    intro h
    exact hb (List.length_eq_zero.mp h)
  refine ⟨rfl, rfl, ?_, ?_, ?_, ?_, ?_, ?_, ?_⟩
  · unfold get_pollen_info_endpoint
    rw [hm]
    rfl
  · unfold get_pollen_info_endpoint
    rw [hm]
    rfl
  · unfold get_pollen_info_endpoint
    rw [hm]
    rfl
  · unfold get_action_plan_endpoint
    rw [hm]
    rfl
  · unfold get_action_plan_endpoint
    rw [hm]
    rfl
  · unfold get_action_plan_endpoint
    rw [hm]
    rfl
  · unfold analyze_image
    rw [if_neg h1, if_neg h2]
    rfl

/-- Witness for C7 at a concrete request. -/
theorem no_client_fails_fast_witness :
    generate_text_gemini .noClient = .failure "API İstemcisi başlatılamadı." ∧
    analyze_with_gemini .noClient 0 =
      { message := "API İstemcisi başlatılamadı.", is_pollen := false
        confidence := 0, pollen_type := "Hata" } ∧
    (get_pollen_info_endpoint (some "Çam Poleni") .noClient).status = 500 ∧
    (get_action_plan_endpoint (some "Çam Poleni") .noClient).status = 500 ∧
    (analyze_image ⟨true, "goruntu.jpg", "image/jpeg", [7]⟩ .noClient 0).status = 500 ∧
    (analyze_image ⟨true, "goruntu.jpg", "image/jpeg", [7]⟩ .noClient 0).modelCalled
      = false := by
  obtain ⟨a, b, c, _, _, f, _, _, i⟩ :=
    no_client_fails_fast 0 "Çam Poleni" "goruntu.jpg" "image/jpeg" [7]
      (by decide) (by decide) (by decide)
  refine ⟨a, b, c, f, ?_, ?_⟩
  · rw [i]
  · rw [i]

/-- C8: an `/analyze` request with no file part or with empty bytes gets a
400 response whose body has an `error` field and no `is_pollen` field, and
the model is never invoked. -/
theorem analyze_rejects_missing_or_empty_file (req : AnalyzeRequest)
    (gw : AnalyzeGateway) (u : ℚ)
    (h : req.filePresent = false ∨ req.fileBytes = []) :
    (analyze_image req gw u).status = 400 ∧
    (analyze_image req gw u).body.error.isSome = true ∧
    (analyze_image req gw u).body.is_pollen = none ∧
    (analyze_image req gw u).modelCalled = false := by
  obtain ⟨p, n, mt, b⟩ := req
  by_cases h1 : p = false ∨ n = ""
  · have e : analyze_image ⟨p, n, mt, b⟩ gw u
        = { status := 400, body := { error := some "Geçerli bir dosya bulunamadı." }
            modelCalled := false } := by
      unfold analyze_image
      rw [if_pos h1]
    rw [e]
    exact ⟨rfl, rfl, rfl, rfl⟩
  · have hb : b = [] := by
      rcases h with hp | hb
      · exact absurd (Or.inl hp) h1
      · exact hb
    subst hb
    have e : analyze_image ⟨p, n, mt, []⟩ gw u
        = { status := 400, body := { error := some "Yüklenen dosya boş." }
            modelCalled := false } := by
      unfold analyze_image
      rw [if_neg h1]
      rfl
    rw [e]
    exact ⟨rfl, rfl, rfl, rfl⟩

/-- Witness for C8 at a request with no file part. -/
theorem analyze_rejects_missing_or_empty_file_witness :
    (analyze_image ⟨false, "", "", []⟩ .noClient 0).status = 400 ∧
    (analyze_image ⟨false, "", "", []⟩ .noClient 0).body.error.isSome = true ∧
    (analyze_image ⟨false, "", "", []⟩ .noClient 0).body.is_pollen = none ∧
    (analyze_image ⟨false, "", "", []⟩ .noClient 0).modelCalled = false :=
  analyze_rejects_missing_or_empty_file ⟨false, "", "", []⟩ .noClient 0 (Or.inl rfl)

/-- C9: both advisory endpoints reject a missing or empty `pollen_type`
with a 400 error, whatever the gateway state is: the check runs before any
model call, so it succeeds even with no API client configured. -/
theorem advisory_endpoints_reject_missing_pollen_type (pt : Option String)
    (gw gw2 : TextGateway) (h : pt = none ∨ pt = some "") :
    (get_pollen_info_endpoint pt gw).status = 400 ∧
    (get_pollen_info_endpoint pt gw).body.error = some "Polen tipi belirtilmedi" ∧
    (get_pollen_info_endpoint pt gw).modelCalled = false ∧
    (get_action_plan_endpoint pt gw2).status = 400 ∧
    (get_action_plan_endpoint pt gw2).body.error = some "Polen tipi belirtilmedi" ∧
    (get_action_plan_endpoint pt gw2).modelCalled = false := by
  have hm : pollenTypeMissing pt = true := by
    rcases h with rfl | rfl
    · rfl
    · rfl
  have e1 : get_pollen_info_endpoint pt gw
      = { status := 400, body := { error := some "Polen tipi belirtilmedi" }
          modelCalled := false } := by
    unfold get_pollen_info_endpoint
    rw [hm]
    rfl
  have e2 : get_action_plan_endpoint pt gw2
      = { status := 400, body := { error := some "Polen tipi belirtilmedi" }
          modelCalled := false } := by
    unfold get_action_plan_endpoint
    rw [hm]
    rfl
  rw [e1, e2]
  exact ⟨rfl, rfl, rfl, rfl, rfl, rfl⟩

/-- Witness for C9 at an absent `pollen_type` with no client configured. -/
theorem advisory_endpoints_reject_missing_pollen_type_witness :
    (get_pollen_info_endpoint none .noClient).status = 400 ∧
    (get_pollen_info_endpoint none .noClient).body.error
      = some "Polen tipi belirtilmedi" ∧
    (get_pollen_info_endpoint none .noClient).modelCalled = false ∧
    (get_action_plan_endpoint none .noClient).status = 400 ∧
    (get_action_plan_endpoint none .noClient).body.error
      = some "Polen tipi belirtilmedi" ∧
    (get_action_plan_endpoint none .noClient).modelCalled = false :=
  advisory_endpoints_reject_missing_pollen_type none .noClient .noClient (Or.inl rfl)

/-- C10: the `/analyze` handler classifies success versus failure by
substring-matching `"Hata"`: whenever the pollen type or the
message of the analysis result contains that substring — even for a genuinely successful detection
whose free-text pollen type happens to contain it — the client gets a 500
response with `pollen_type = "Hata"`, `is_pollen = false` and confidence
`0.0` instead of the result. -/
theorem hata_substring_hijacks_success (req : AnalyzeRequest)
    (gw : AnalyzeGateway) (u : ℚ)
    (hp : req.filePresent = true) (hn : req.filename ≠ "") (hb : req.fileBytes ≠ [])
    (hh : containsSub (analyze_with_gemini gw u).pollen_type "Hata" = true ∨
          containsSub (analyze_with_gemini gw u).message "Hata" = true) :
    analyze_image req gw u
      = { status := 500
          body := { error := some (analyze_with_gemini gw u).message
                    is_pollen := some false, confidence := some 0
                    pollen_type := some "Hata" }
          modelCalled := networkCalled gw } := by
  obtain ⟨p, n, mt, b⟩ := req
  have hp' : p = true := hp
  subst hp'
  have h1 : ¬ ((true : Bool) = false ∨ n = "") := by
    rintro (h | h)
    · exact Bool.noConfusion h
    · exact hn h
  have h2 : ¬ (b.length = 0) := by
    intro h
    exact hb (List.length_eq_zero.mp h)
  simp only [analyze_image]
  rw [if_neg h1, if_neg h2, if_pos hh]

/-- Witness for C10: a genuinely successful high-confidence detection whose
pollen type contains `"Hata"` is replaced by the 500 error response. -/
theorem hata_substring_hijacks_success_witness :
    analyze_with_gemini
        (.response "" (.object (some true) (some (19/20)) (some "Hatalı Çam Poleni"))) (3/4)
      = { message := detectedMessage, is_pollen := true
          confidence := 19/20, pollen_type := "Hatalı Çam Poleni" } ∧
    analyze_image ⟨true, "goruntu.jpg", "image/jpeg", [7]⟩
        (.response "" (.object (some true) (some (19/20)) (some "Hatalı Çam Poleni"))) (3/4)
      = { status := 500
          body := { error := some detectedMessage, is_pollen := some false
                    confidence := some 0, pollen_type := some "Hata" }
          modelCalled := true } := by
  have he := analyze_high_conf_eval "" "Hatalı Çam Poleni" (3/4)
  have happ := hata_substring_hijacks_success
    ⟨true, "goruntu.jpg", "image/jpeg", [7]⟩
    (.response "" (.object (some true) (some (19/20)) (some "Hatalı Çam Poleni"))) (3/4)
    rfl (by decide) (by decide) (Or.inl (by rw [he]; decide))
  refine ⟨he, ?_⟩
  rw [happ, he]
  rfl

end PolenAnaliz
